import Mathlib

/-!
Verification development for the orca deployment orchestrator.

This file gives a shallow embedding, in Lean 4, of the orchestrator logic of
the repository (project classification, port sniffing, Dockerfile/.env
preparation, Kubernetes manifest synthesis, tunnel/exposure management,
listing and deletion), together with theorems settling the specification
claims about it.

Modelling conventions:
- a source tree (a directory of files) is an association list from file name
  to file content; `os.path.exists` is lookup success, writing a file is
  insertion at the front;
- Python `re.search` over the fixed patterns used by the code is embedded by
  hand-written matchers that scan every position left to right (leftmost
  match), with greedy `\d+`;
- Python `int(...)` parsing of a string is embedded by `parsePyInt`
  (surrounding ASCII whitespace, optional sign, digits with single
  underscores between digits);
- external processes (kubectl, pkill, ps) are modelled by explicit state:
  the set of live tunnel processes is a list of command-line strings; a
  `run_command` call (subprocess.run with check=True) raises exactly when the
  command exits non-zero, in particular `ps aux | grep P | grep -v grep`
  raises exactly when no live process command line contains P (the final
  `grep -v grep` exits 1 when it prints nothing);
- per-call nondeterminism of the outside world (which free port the OS hands
  out, whether kubectl/pod queries succeed, whether the spawned port-forward
  process is still alive at verification time) is an explicit `ExpoWorld`
  record.
-/

namespace Orca

/-! ## Generic character and string helpers -/

/-- ASCII digit test, as used by the regex character class `\d` on the
ASCII text the code scans. -/
def isAsciiDigit (c : Char) : Bool := '0' ≤ c && c ≤ '9'

/-- Numeric value of an ASCII digit. -/
def digitVal (c : Char) : Nat := c.toNat - 48

/-- ASCII whitespace, the relevant fragment of Python's `\s` class and of
`str.strip` / `int()` whitespace stripping. -/
def isPyWs (c : Char) : Bool :=
  c = ' ' || c = '\t' || c = '\n' || c = '\r' || c = Char.ofNat 11 || c = Char.ofNat 12

/-- Prefix test on character lists. -/
def startsWithL : List Char → List Char → Bool
  | [], _ => true
  | _ :: _, [] => false
  | p :: ps, c :: cs => p = c && startsWithL ps cs

/-- Substring containment on character lists: some position of the text
starts with the pattern. -/
def containsSubL (pat : List Char) : List Char → Bool
  | [] => startsWithL pat []
  | c :: cs => startsWithL pat (c :: cs) || containsSubL pat cs

/-- Substring containment on strings: `containsSub s pat` holds when `pat`
occurs contiguously inside `s` (the semantics of `pkill -f` with a literal
pattern, and of `grep` with a fixed string). -/
def containsSub (s pat : String) : Bool := containsSubL pat.toList s.toList

/-! ## Python `int()` parsing -/

/-- Digit accumulation for `parseUDigits`: consumes digits, allowing a single
underscore between two digits, and succeeds only when the whole input is
consumed (the caller has already stripped surrounding whitespace). -/
def parseUDigitsGo (acc : Nat) : List Char → Option Nat
  | [] => some acc
  | '_' :: c :: rest =>
    if isAsciiDigit c then parseUDigitsGo (acc * 10 + digitVal c) rest else none
  | '_' :: [] => none
  | c :: rest =>
    if isAsciiDigit c then parseUDigitsGo (acc * 10 + digitVal c) rest else none

/-- Parse a non-empty run of digits with optional single underscores between
digits, Python 3 integer-literal style. -/
def parseUDigits : List Char → Option Nat
  | [] => none
  | c :: rest => if isAsciiDigit c then parseUDigitsGo (digitVal c) rest else none

/-- Embedding of Python `int(s)` on a string: strip surrounding whitespace,
optional sign, then digits (underscore separators allowed); `none` models a
raised `ValueError`. -/
def parsePyInt (s : String) : Option Int :=
  let cs := ((s.toList.dropWhile isPyWs).reverse.dropWhile isPyWs).reverse
  match cs with
  | '+' :: rest => (parseUDigits rest).map Int.ofNat
  | '-' :: rest => (parseUDigits rest).map (fun n => -(n : Int))
  | rest => (parseUDigits rest).map Int.ofNat

/-! ## Regex pattern matchers

Each matcher tries to match its pattern at the current position of the text
and returns the captured `(\d+)` group on success. `searchFirst` turns a
positional matcher into `re.search` (leftmost match). -/

/-- Match a literal, returning the remaining text. -/
def dropLit : List Char → List Char → Option (List Char)
  | [], cs => some cs
  | _ :: _, [] => none
  | p :: ps, c :: cs => if p = c then dropLit ps cs else none

/-- Greedy accumulation of further digits after at least one was read. -/
def takeDigitsGo (acc : Nat) : List Char → Nat × List Char
  | [] => (acc, [])
  | c :: cs =>
    if isAsciiDigit c then takeDigitsGo (acc * 10 + digitVal c) cs else (acc, c :: cs)

/-- Greedy `(\d+)`: at least one digit, maximal run, returning its value and
the remaining text. -/
def takeDigits1 : List Char → Option (Nat × List Char)
  | [] => none
  | c :: cs => if isAsciiDigit c then some (takeDigitsGo (digitVal c) cs) else none

/-- Leftmost-match search, Python `re.search`: try the matcher at every
position left to right. -/
def searchFirst (m : List Char → Option Nat) : List Char → Option Nat
  | [] => none
  | c :: cs =>
    match m (c :: cs) with
    | some n => some n
    | none => searchFirst m cs

/-- Rightmost match within the current line, the effect of a greedy `.*`
(which cannot cross a newline) in front of a sub-pattern. -/
def lastNoNL (m : List Char → Option Nat) : List Char → Option Nat
  | [] => none
  | c :: cs =>
    if c = '\n' then m (c :: cs)
    else
      match lastNoNL m cs with
      | some n => some n
      | none => m (c :: cs)

/-- Matcher for the pattern fragment `\.listen\s*\(\s*(\d+)`. -/
def matListen (cs : List Char) : Option Nat := do
  let r1 ← dropLit ".listen".toList cs
  let r2 ← dropLit "(".toList (r1.dropWhile isPyWs)
  let (n, _) ← takeDigits1 (r2.dropWhile isPyWs)
  pure n

/-- Matcher for the pattern `port\s*=\s*(\d+)`. -/
def matPortEqLower (cs : List Char) : Option Nat := do
  let r1 ← dropLit "port".toList cs
  let r2 ← dropLit "=".toList (r1.dropWhile isPyWs)
  let (n, _) ← takeDigits1 (r2.dropWhile isPyWs)
  pure n

/-- Matcher for the pattern `PORT\s*=\s*(\d+)`. -/
def matPortEqUpper (cs : List Char) : Option Nat := do
  let r1 ← dropLit "PORT".toList cs
  let r2 ← dropLit "=".toList (r1.dropWhile isPyWs)
  let (n, _) ← takeDigits1 (r2.dropWhile isPyWs)
  pure n

/-- Matcher for the pattern `process\.env\.PORT\s*\|\|\s*(\d+)`. -/
def matProcEnvPort (cs : List Char) : Option Nat := do
  let r1 ← dropLit "process.env.PORT".toList cs
  let r2 ← dropLit "||".toList (r1.dropWhile isPyWs)
  let (n, _) ← takeDigits1 (r2.dropWhile isPyWs)
  pure n

/-- Matcher for the pattern `app\.run\s*\(\s*.*port\s*=\s*(\d+)`: after
`app.run(` and whitespace, the greedy `.*` selects the last `port = <digits>`
occurrence reachable without crossing a newline. -/
def matAppRun (cs : List Char) : Option Nat := do
  let r1 ← dropLit "app.run".toList cs
  let r2 ← dropLit "(".toList (r1.dropWhile isPyWs)
  lastNoNL matPortEqLower (r2.dropWhile isPyWs)

/-- Single-quote character, kept out of string literals. -/
def sq : Char := Char.ofNat 39

/-- Literal head of the `int(os.environ.get('PORT', ...))` pattern. -/
def environGetHead : List Char :=
  "int(os.environ.get(".toList ++ [sq] ++ "PORT".toList ++ [sq, ',']

/-- Matcher for the pattern `int\(os\.environ\.get\('PORT',\s*'(\d+)'\)`. -/
def matEnvironGet (cs : List Char) : Option Nat := do
  let r1 ← dropLit environGetHead cs
  let r2 ← dropLit [sq] (r1.dropWhile isPyWs)
  let (n, r3) ← takeDigits1 r2
  let _ ← dropLit [sq, ')'] r3
  pure n

/-- Matcher for the pattern `(\d+):80` used when re-parsing a live
port-forward command line. -/
def matDigitsColon80 (cs : List Char) : Option Nat := do
  let (n, r) ← takeDigits1 cs
  let _ ← dropLit ":80".toList r
  pure n

/-! ## Source trees and environment bindings -/

/-- A source tree: an association list from file name to file content.
`os.path.exists` is modelled by lookup success; writing a file prepends a
binding. -/
def Tree := List (String × String)

/-- File lookup in a source tree (`os.path.exists` / `open(...).read()`). -/
def Tree.find (t : Tree) (name : String) : Option String :=
  (List.find? (fun kv => kv.1 == name) t).map (fun kv => kv.2)

/-- File write into a source tree (`open(path, "w").write(content)`). -/
def treeInsert (t : Tree) (name content : String) : Tree := (name, content) :: t

/-- Environment bindings `env_vars`: an ordered mapping from variable name to
string value. -/
def EnvVars := List (String × String)

/-- Dictionary lookup in the environment bindings (`"PORT" in env_vars`
combined with `env_vars["PORT"]`). -/
def envLookup (env : EnvVars) (key : String) : Option String :=
  (List.find? (fun kv => kv.1 == key) env).map (fun kv => kv.2)

/-- Emptiness of the bindings, Python truthiness of the `env_vars` dict. -/
def envIsEmpty (env : EnvVars) : Bool :=
  match env with
  | [] => true
  | _ :: _ => false

/-! ## config/templates: canonical Dockerfile contents -/

/-- Content of `node_dockerfile` from config/templates/node.py. -/
def node_dockerfile : String :=
  "FROM node:16-alpine\n\nWORKDIR /app\n\nCOPY package*.json ./\nRUN npm install\n\nCOPY . .\n\n# Use environment variables\nCOPY .env .env\nENV $(cat .env | xargs)\n\nRUN npm run build || echo \"No build script found\"\n\nEXPOSE 3000\n\nCMD [\"npm\", \"start\"]\n"

/-- Content of `python_dockerfile` from config/templates/python.py. -/
def python_dockerfile : String :=
  "FROM python:3.9-slim\n\nWORKDIR /app\n\nCOPY requirements.txt .\nRUN pip install --no-cache-dir -r requirements.txt\n\nCOPY . .\n\n# Use environment variables\nCOPY .env .env\nENV $(cat .env)\n\nEXPOSE 5000\n\nCMD [\"python\", \"app.py\"]\n"

/-- Content of `go_dockerfile` from config/templates/go.py. -/
def go_dockerfile : String :=
  "FROM golang:1.18-alpine AS build\n\nWORKDIR /app\n\nCOPY go.* ./\nRUN go mod download\n\nCOPY . .\nRUN CGO_ENABLED=0 go build -o /app/server\n\nFROM alpine:3.15\nWORKDIR /app\nCOPY --from=build /app/server .\nCOPY .env .env\n\nEXPOSE 8080\n\nCMD [\"./server\"]\n"

/-- Content of the static-site Dockerfile. The module config/templates/static
imported by api/services/build.py is not present as a file, but the identical
inline template appears in api/deploy_service.py's detect_project_type. -/
def static_dockerfile : String :=
  "FROM nginx:alpine\n\nWORKDIR /usr/share/nginx/html\n\nCOPY . .\n\nEXPOSE 80\n\nCMD [\"nginx\", \"-g\", \"daemon off;\"]\n"

/-! ## api/services/build.py -/

/-- Embedding of `detect_project_type(project_dir)`: test marker files in
fixed priority order (package.json, requirements.txt, go.mod), defaulting to
static; returns the archetype name and its Dockerfile content. -/
def detect_project_type (t : Tree) : String × String :=
  if (t.find "package.json").isSome then ("node", node_dockerfile)
  else if (t.find "requirements.txt").isSome then ("python", python_dockerfile)
  else if (t.find "go.mod").isSome then ("go", go_dockerfile)
  else ("static", static_dockerfile)

/-- Entry-point files scanned for node projects. -/
def nodeFiles : List String := ["index.js", "server.js", "app.js"]

/-- Ordered pattern rules applied to node entry-point files. -/
def nodePatterns : List (List Char → Option Nat) :=
  [matListen, matPortEqLower, matPortEqUpper, matProcEnvPort]

/-- Entry-point files scanned for python projects. -/
def pythonFiles : List String := ["app.py", "main.py", "run.py"]

/-- Ordered pattern rules applied to python entry-point files. -/
def pythonPatterns : List (List Char → Option Nat) :=
  [matAppRun, matPortEqLower, matPortEqUpper, matEnvironGet]

/-- Apply the ordered pattern rules to one file content; the first rule that
matches anywhere in the content wins (`re.search` per pattern, in order). -/
def scanPatterns : List (List Char → Option Nat) → List Char → Option Nat
  | [], _ => none
  | p :: ps, cs =>
    match searchFirst p cs with
    | some n => some n
    | none => scanPatterns ps cs

/-- Scan the candidate entry-point files in order: the first existing file in
which some pattern matches decides; a file with no match falls through to the
next file. -/
def scanFiles (t : Tree) : List String → List (List Char → Option Nat) → Option Nat
  | [], _ => none
  | f :: fs, pats =>
    match t.find f with
    | some content =>
      match scanPatterns pats content.toList with
      | some n => some n
      | none => scanFiles t fs pats
    | none => scanFiles t fs pats

/-- Embedding of the `default_ports` dict lookup `.get(project_type, 80)`. -/
def defaultPortsGet (ptype : String) : Int :=
  if ptype = "node" then 3000
  else if ptype = "python" then 5000
  else if ptype = "go" then 8080
  else if ptype = "static" then 80
  else 80

/-- Source-inspection stage of `detect_project_port`: the node block runs
only for archetype node, then the python block only for archetype python. -/
def portFromSource (t : Tree) (ptype : String) : Option Nat :=
  match (if ptype = "node" then scanFiles t nodeFiles nodePatterns else none) with
  | some n => some n
  | none => if ptype = "python" then scanFiles t pythonFiles pythonPatterns else none

/-- Resolution of `detect_project_port` past the environment check: source
inspection, then the archetype default. -/
def resolvePortNoEnv (t : Tree) (ptype : String) : Int :=
  match portFromSource t ptype with
  | some n => (n : Int)
  | none => defaultPortsGet ptype

/-- Embedding of `detect_project_port(project_dir, project_type, env_vars)`:
a `PORT` binding parsed by `int()` wins; a `ValueError` is logged and skipped
(fall through to source inspection, then the archetype default). -/
def detect_project_port (t : Tree) (ptype : String) (env : EnvVars) : Int :=
  match envLookup env "PORT" with
  | some v =>
    match parsePyInt v with
    | some n => n
    | none => resolvePortNoEnv t ptype
  | none => resolvePortNoEnv t ptype

/-- Content of the generated `.env` file: one `KEY=VALUE` line per binding. -/
def envFileContent (env : EnvVars) : String :=
  String.join (List.map (fun kv => kv.1 ++ "=" ++ kv.2 ++ "\n") env)

/-- Embedding of `prepare_docker_build(project_dir, env_vars)`: if no
Dockerfile exists, detect the project type and write its Dockerfile
(otherwise the type stays the "static" default and nothing is written); then
write a `.env` file when absent and the bindings are non-empty. Returns the
project type and the updated tree. -/
def prepare_docker_build (t : Tree) (env : EnvVars) : String × Tree :=
  let r :=
    if (t.find "Dockerfile").isSome then ("static", t)
    else
      let d := detect_project_type t
      (d.1, treeInsert t "Dockerfile" d.2)
  let t2 :=
    if (r.2.find ".env").isNone && !envIsEmpty env then
      treeInsert r.2 ".env" (envFileContent env)
    else r.2
  (r.1, t2)

/-! ## api/services/kubernetes.py -/

/-- Workload manifest fields synthesized by `deploy_to_kubernetes` (the
Deployment YAML dict). -/
structure DeploymentManifest where
  apiVersion : String
  kind : String
  name : String
  replicas : Nat
  selectorMatchLabelsApp : String
  templateLabelsApp : String
  containerName : String
  image : String
  containerPort : Int
  imagePullPolicy : String
deriving DecidableEq

/-- Exposure manifest fields synthesized by `deploy_to_kubernetes` (the
Service YAML dict). -/
structure ServiceManifest where
  apiVersion : String
  kind : String
  name : String
  selectorApp : String
  port : Nat
  targetPort : Int
  svcType : String
deriving DecidableEq

/-- Embedding of the manifest-synthesis part of
`deploy_to_kubernetes(app_name, image_name, project_type, env_vars,
project_dir, workdir)`: resolve the container port once, then build the
Deployment and Service dicts. The YAML write and the `kubectl apply` /
`rollout status` effects carry no further data and are omitted. -/
def deploy_to_kubernetes (app_name image_name : String) (project_type : String)
    (env_vars : Option EnvVars) (project_dir : Tree) :
    DeploymentManifest × ServiceManifest :=
  let env := env_vars.getD []
  let container_port := detect_project_port project_dir project_type env
  (⟨"apps/v1", "Deployment", app_name, 1, app_name, app_name,
    app_name, image_name, container_port, "Never"⟩,
   ⟨"v1", "Service", app_name, app_name, 80, container_port, "NodePort"⟩)

/-- Live tunnel processes: command lines of running
`kubectl port-forward` processes. -/
def ProcState := List String

/-- Pattern used both by `pkill -f` and by `ps aux | grep` to find the
tunnel processes of a workload. -/
def tunnelPat (name : String) : String :=
  "kubectl port-forward service/" ++ name

/-- Command line of the spawned tunnel process for a workload bound to a
local port. -/
def tunnelCmdline (name : String) (port : Nat) : String :=
  "kubectl port-forward service/" ++ name ++ " " ++ toString port
    ++ ":80 --address 0.0.0.0"

/-- Live tunnel processes of a workload: those whose command line contains
the grep pattern. -/
def tunnelLines (st : ProcState) (name : String) : List String :=
  st.filter (fun c => containsSub c (tunnelPat name))

/-- Per-call outside-world outcomes for `get_service_url`: the free local
port handed out by the OS (none models a socket failure), whether the
`kubectl get pods` status query exits zero, whether `subprocess.Popen`
succeeds, and whether the spawned port-forward process has already exited by
the time the verification `ps` runs. -/
structure ExpoWorld where
  allocPort : Option Nat
  podStatusOk : Bool
  spawnOk : Bool
  tunnelDied : Bool
deriving DecidableEq

/-- Observable actions of `get_service_url` on the process table, in
order. -/
inductive ExpoEvent
  | kill (name : String)
  | spawn (name : String) (port : Nat)
deriving DecidableEq

/-- Sentinel string returned by `get_service_url` from its exception
handler. -/
def exposureSentinel : String := "Could not set up port forwarding"

/-- Embedding of `get_service_url(app_name)`: allocate a free port, `pkill`
any tunnel process matching this workload, query the pod status, spawn the
new tunnel, then verify with `ps aux | grep <pattern> | grep -v grep` — a
`run_command` call that raises exactly when no matching process line exists
(the final grep exits 1), which the surrounding `except` turns into the
sentinel. Returns the result string, the updated process table, and the
event trace. -/
def getServiceUrl (w : ExpoWorld) (st : ProcState) (name : String) :
    String × ProcState × List ExpoEvent :=
  match w.allocPort with
  | none => (exposureSentinel, st, [])
  | some port =>
    let st1 := st.filter (fun c => ! containsSub c (tunnelPat name))
    if !w.podStatusOk then (exposureSentinel, st1, [ExpoEvent.kill name])
    else if !w.spawnOk then (exposureSentinel, st1, [ExpoEvent.kill name])
    else
      let st2 := st1 ++ [tunnelCmdline name port]
      let tr2 := [ExpoEvent.kill name, ExpoEvent.spawn name port]
      let st3 := if w.tunnelDied then st1 else st2
      if (tunnelLines st3 name).isEmpty then (exposureSentinel, st3, tr2)
      else ("http://localhost:" ++ toString port, st3, tr2)

/-! ## api/routes/deployment.py -/

/-- Deployment identity derivation `str(uuid.uuid4())[:8]` applied to the
drawn UUID4 string. -/
def deployId (u : String) : String := ⟨u.toList.take 8⟩

/-- Workload name `f"app-{deploy_id}"`. -/
def appNameOf (id : String) : String := "app-" ++ id

/-- Per-workload reuse-or-create step of `list_deployments`: if the
`ps aux | grep` pipeline finds live tunnel lines, parse `(\d+):80` out of
them and reuse that local port; when the pipeline raises (no line) or the
regex finds no match (`.group(1)` on None raises), fall to
`get_service_url`. -/
def reuseOrCreate (w : ExpoWorld) (st : ProcState) (name : String) :
    String × ProcState :=
  let lines := tunnelLines st name
  if lines.isEmpty then
    let r := getServiceUrl w st name
    (r.1, r.2.1)
  else
    match searchFirst matDigitsColon80 (String.intercalate "\n" lines).toList with
    | some p => ("http://localhost:" ++ toString p, st)
    | none =>
      let r := getServiceUrl w st name
      (r.1, r.2.1)

/-- Prefix filter `app_name.startswith("app-")` of the listing loop. -/
def hasAppMarker (name : String) : Bool := startsWithL "app-".toList name.toList

/-- Embedding of the loop of `list_deployments`: over the workload names the
cluster reports, keep exactly those starting with "app-" and attach a service
URL to each via reuse-or-create; `envW` supplies the outside-world outcomes
for the `get_service_url` calls. -/
def listDeployments (envW : String → ExpoWorld) (deps : List String)
    (st : ProcState) : List (String × String) × ProcState :=
  match deps with
  | [] => ([], st)
  | name :: rest =>
    if hasAppMarker name then
      let r := reuseOrCreate (envW name) st name
      let tail := listDeployments envW rest r.2
      ((name, r.1) :: tail.1, tail.2)
    else listDeployments envW rest st

/-- Cluster state seen by delete: which service and deployment objects
exist. -/
structure Cluster where
  services : List String
  deployments : List String
deriving DecidableEq

/-- Commands `delete_deployment` may issue against cluster or processes. -/
inductive ClusterCmd
  | deleteService (name : String)
  | deleteDeployment (name : String)
  | killTunnel (name : String)
deriving DecidableEq

/-- Structured response of the delete route. -/
structure DeleteResult where
  status : String
  message : String
deriving DecidableEq

/-- Embedding of the delete route: `kubectl delete service` then
`kubectl delete deployment`, each raising (kubectl exits non-zero, NotFound)
when the object does not exist, turned by the `except` into a status "error"
response; the error detail string is abstracted. Returns the response, the
new cluster state, and the commands issued in order. -/
def delete_deployment (c : Cluster) (name : String) :
    DeleteResult × Cluster × List ClusterCmd :=
  if name ∈ c.services then
    let c1 : Cluster := ⟨c.services.erase name, c.deployments⟩
    if name ∈ c1.deployments then
      (⟨"success", "Deployment " ++ name ++ " deleted"⟩,
       ⟨c1.services, c1.deployments.erase name⟩,
       [ClusterCmd.deleteService name, ClusterCmd.deleteDeployment name])
    else
      (⟨"error", "kubectl delete deployment: NotFound"⟩, c1,
       [ClusterCmd.deleteService name, ClusterCmd.deleteDeployment name])
  else
    (⟨"error", "kubectl delete service: NotFound"⟩, c,
     [ClusterCmd.deleteService name])

/-! ## Helper lemmas -/

/-- Looking up the key just written returns the written content. -/
lemma treeFind_insert_self (t : Tree) (k v : String) :
    (treeInsert t k v).find k = some v := by
  simp [treeInsert, Tree.find, List.find?]

/-- Writing one file leaves lookups of a different file name unchanged. -/
lemma treeFind_insert_ne (t : Tree) (k k' v : String) (h : k ≠ k') :
    (treeInsert t k v).find k' = t.find k' := by
  have hb : (k == k') = false := by simpa using h
  simp [treeInsert, Tree.find, List.find?, hb]

/-- Keeping only the elements failing a test, then only those passing it,
leaves nothing. -/
lemma filter_not_filter {α : Type} (l : List α) (q : α → Bool) :
    (l.filter (fun a => ! q a)).filter q = [] := by
  induction l with
  | nil => rfl
  | cons a l ih => by_cases h : q a <;> simp [List.filter_cons, h, ih]

/-- A list starts with itself. -/
lemma startsWithL_self_append (p t : List Char) : startsWithL p (p ++ t) = true := by
  induction p with
  | nil => rfl
  | cons c cs ih => simp [startsWithL, ih]

/-- Matching at the first position witnesses containment. -/
lemma containsSubL_of_starts (p cs : List Char) (h : startsWithL p cs = true) :
    containsSubL p cs = true := by
  cases cs with
  | nil => simpa [containsSubL] using h
  | cons c cs' => simp [containsSubL, h]

/-- The command line of a spawned tunnel matches the grep/pkill pattern of
its workload. -/
lemma contains_tunnelCmdline (name : String) (port : Nat) :
    containsSub (tunnelCmdline name port) (tunnelPat name) = true := by
  unfold containsSub
  have hdecomp : (tunnelCmdline name port).toList
      = (tunnelPat name).toList
        ++ (" " ++ toString port ++ ":80 --address 0.0.0.0").toList := by
    simp [tunnelCmdline, tunnelPat, String.toList, String.data_append,
      List.append_assoc]
  rw [hdecomp]
  exact containsSubL_of_starts _ _ (startsWithL_self_append _ _)

/-! ## Claim theorems -/

/-- C1: a `PORT` binding that parses as an integer decides the resolved port
regardless of source content or archetype; a binding that fails to parse is
skipped, resolution falling through to source inspection and then to the
archetype default. -/
theorem c1_port_binding_precedence (t : Tree) (ptype : String) (env : EnvVars)
    (v : String) (hv : envLookup env "PORT" = some v) :
    (∀ n : Int, parsePyInt v = some n → detect_project_port t ptype env = n) ∧
    (parsePyInt v = none →
      detect_project_port t ptype env = resolvePortNoEnv t ptype ∧
      (portFromSource t ptype = none →
        detect_project_port t ptype env = defaultPortsGet ptype)) := by
  have hstep : detect_project_port t ptype env
      = (match parsePyInt v with
         | some n => n
         | none => resolvePortNoEnv t ptype) := by
    unfold detect_project_port; rw [hv]
  constructor
  · intro n hn; rw [hstep, hn]
  · intro hn; rw [hstep, hn]
    refine ⟨rfl, fun hs => ?_⟩
    unfold resolvePortNoEnv
    rw [hs]

/-- Witness for C1 at a concrete binding: a numeric PORT wins over the
static default. -/
theorem c1_witness :
    detect_project_port ([] : Tree) "static" [("PORT", "9999")] = 9999 :=
  (c1_port_binding_precedence [] "static" [("PORT", "9999")] "9999"
    (by decide)).1 9999 (by decide)

/-- C2: detect_project_type returns exactly one archetype following the
fixed priority package.json, requirements.txt, go.mod, defaulting to static
(so a tree with both a Node manifest and a Go module file is node); on the
deploy path, the canonical recipe is written into the tree exactly when no
Dockerfile already exists there. -/
theorem c2_classifier_priority_and_recipe (t : Tree) (env : EnvVars) :
    ((t.find "package.json").isSome →
       detect_project_type t = ("node", node_dockerfile)) ∧
    (¬ (t.find "package.json").isSome → (t.find "requirements.txt").isSome →
       detect_project_type t = ("python", python_dockerfile)) ∧
    (¬ (t.find "package.json").isSome → ¬ (t.find "requirements.txt").isSome →
       (t.find "go.mod").isSome →
       detect_project_type t = ("go", go_dockerfile)) ∧
    (¬ (t.find "package.json").isSome → ¬ (t.find "requirements.txt").isSome →
       ¬ (t.find "go.mod").isSome →
       detect_project_type t = ("static", static_dockerfile)) ∧
    ((t.find "package.json").isSome → (t.find "go.mod").isSome →
       (detect_project_type t).1 = "node") ∧
    (t.find "Dockerfile" = none →
       (prepare_docker_build t env).2.find "Dockerfile"
         = some (detect_project_type t).2 ∧
       (prepare_docker_build t env).1 = (detect_project_type t).1) ∧
    ((t.find "Dockerfile").isSome →
       (prepare_docker_build t env).2.find "Dockerfile" = t.find "Dockerfile") := by
  have hne : (".env" : String) ≠ "Dockerfile" := by decide
  refine ⟨?_, ?_, ?_, ?_, ?_, ?_, ?_⟩
  · intro h1; unfold detect_project_type; simp [h1]
  · intro h1 h2; unfold detect_project_type; simp [h1, h2]
  · intro h1 h2 h3; unfold detect_project_type; simp [h1, h2, h3]
  · intro h1 h2 h3; unfold detect_project_type; simp [h1, h2, h3]
  · intro h1 _; unfold detect_project_type; simp [h1]
  · intro h
    have h' : (t.find "Dockerfile").isSome = false := by simp [h]
    unfold prepare_docker_build
    rw [h']
    constructor
    · by_cases hc :
        ((treeInsert t "Dockerfile" (detect_project_type t).2).find ".env").isNone
          && !envIsEmpty env
      · simp only [Bool.false_eq_true, if_false, hc, if_true]
        rw [treeFind_insert_ne _ _ _ _ hne, treeFind_insert_self]
      · simp only [Bool.false_eq_true, if_false, hc]
        rw [treeFind_insert_self]
    · by_cases hc :
        ((treeInsert t "Dockerfile" (detect_project_type t).2).find ".env").isNone
          && !envIsEmpty env
      · simp [hc]
      · simp [hc]
  · intro h
    unfold prepare_docker_build
    rw [h]
    by_cases hc : (t.find ".env").isNone && !envIsEmpty env
    · simp only [if_true, hc]
      rw [treeFind_insert_ne _ _ _ _ hne]
    · simp [hc]

/-- Witness for C2 on a tree holding both a Node manifest and a Go module
file, with no Dockerfile. -/
theorem c2_witness :
    detect_project_type [("package.json", "x"), ("go.mod", "y")]
      = ("node", node_dockerfile) ∧
    Tree.find (prepare_docker_build [("package.json", "x"), ("go.mod", "y")] []).2
      "Dockerfile" = some node_dockerfile := by
  have h := c2_classifier_priority_and_recipe
    [("package.json", "x"), ("go.mod", "y")] []
  have h1 := h.1 (by decide)
  refine ⟨h1, ?_⟩
  have h6 := (h.2.2.2.2.2.1 (by decide)).1
  rw [h1] at h6
  exact h6

/-- C3: the synthesized workload manifest requests one replica with pull
policy Never, the exposure manifest publishes port 80 onto the single
resolved container port, the workload declares that same port, and the
selector labels on both manifests are exactly the workload name. -/
theorem c3_manifest_invariants (app_name image_name project_type : String)
    (env_vars : Option EnvVars) (project_dir : Tree) :
    let r := deploy_to_kubernetes app_name image_name project_type env_vars project_dir
    r.1.replicas = 1 ∧
    r.1.imagePullPolicy = "Never" ∧
    r.2.port = 80 ∧
    r.2.targetPort = detect_project_port project_dir project_type (env_vars.getD []) ∧
    r.1.containerPort = r.2.targetPort ∧
    r.1.selectorMatchLabelsApp = app_name ∧
    r.1.templateLabelsApp = app_name ∧
    r.2.selectorApp = app_name :=
  ⟨rfl, rfl, rfl, rfl, rfl, rfl, rfl, rfl⟩

/-- C9 counterexample: the binding PORT="0" parses and is returned as the
resolved container port, which is not positive. -/
theorem c9_counterexample :
    detect_project_port ([] : Tree) "static" [("PORT", "0")] = 0 ∧
    ¬ (0 < detect_project_port ([] : Tree) "static" [("PORT", "0")]) := by
  decide

/-- C9 amended: when no PORT binding parses as an integer, the resolved port
is nonnegative, and when source inspection also finds nothing the result is
the archetype default, which is positive. -/
theorem c9_amended (t : Tree) (ptype : String) (env : EnvVars)
    (h : ∀ v, envLookup env "PORT" = some v → parsePyInt v = none) :
    0 ≤ detect_project_port t ptype env ∧
    (portFromSource t ptype = none →
      detect_project_port t ptype env = defaultPortsGet ptype ∧
      0 < defaultPortsGet ptype) := by
  have hres : detect_project_port t ptype env = resolvePortNoEnv t ptype := by
    unfold detect_project_port
    cases he : envLookup env "PORT" with
    | none => rfl
    | some v =>
      have hstep : (match parsePyInt v with
          | some n => (n : Int)
          | none => resolvePortNoEnv t ptype) = resolvePortNoEnv t ptype := by
        rw [h v he]
      exact hstep
  have hpos : ∀ s, 0 < defaultPortsGet s := by
    intro s; unfold defaultPortsGet; split_ifs <;> norm_num
  constructor
  · rw [hres]; unfold resolvePortNoEnv
    cases hs : portFromSource t ptype with
    | some n => exact Int.ofNat_nonneg n
    | none => exact le_of_lt (hpos ptype)
  · intro hs; rw [hres]
    unfold resolvePortNoEnv
    rw [hs]
    exact ⟨rfl, hpos ptype⟩

/-- Witness for C9 amended at empty bindings and a go tree. -/
theorem c9_amended_witness :
    0 ≤ detect_project_port ([] : Tree) "go" [] :=
  (c9_amended [] "go" [] (fun _ hv => Option.noConfusion hv)).1

/-- C10: with a Dockerfile already in the tree, prepare_docker_build skips
classification and reports "static", and, absent a PORT binding, the port
resolved on the prepared tree is the static default 80. -/
theorem c10_dockerfile_static (t : Tree) (env : EnvVars)
    (h : (t.find "Dockerfile").isSome) :
    (prepare_docker_build t env).1 = "static" ∧
    (envLookup env "PORT" = none →
      detect_project_port (prepare_docker_build t env).2 "static" env = 80) := by
  constructor
  · unfold prepare_docker_build
    simp [h]
  · intro he
    unfold detect_project_port
    rw [he]
    simp [resolvePortNoEnv, portFromSource, defaultPortsGet]

/-- Witness for C10 on a one-file tree with a user Dockerfile. -/
theorem c10_witness :
    (prepare_docker_build [("Dockerfile", "FROM scratch")] []).1 = "static" ∧
    detect_project_port (prepare_docker_build [("Dockerfile", "FROM scratch")] []).2
      "static" [] = 80 := by
  have h := c10_dockerfile_static [("Dockerfile", "FROM scratch")] [] (by decide)
  exact ⟨h.1, h.2 (by decide)⟩

/-- C4: evaluation of the code at the divergence point. Port allocation, the
pod-status query and the tunnel spawn all succeed, but the spawned
port-forward process is no longer alive when the verification
`ps aux | grep ... | grep -v grep` runs; that run_command call exits
non-zero, the check=True exception is caught by the outer handler, and the
function returns the sentinel instead of logging a warning and returning
http://localhost:45678 (the warning branch the code contains for this case
is unreachable). -/
theorem c4_verification_failure_returns_sentinel :
    (getServiceUrl ⟨some 45678, true, true, true⟩ [] "app-deadbeef").1
      = exposureSentinel := by decide

/-- C7: delete issues the service deletion before the deployment deletion,
never touches tunnel processes, and reports status "error" whenever the
named workload does not exist in the cluster. -/
theorem c7_delete_order_and_missing (c : Cluster) (name : String) :
    ((delete_deployment c name).2.2 = [ClusterCmd.deleteService name] ∨
     (delete_deployment c name).2.2
       = [ClusterCmd.deleteService name, ClusterCmd.deleteDeployment name]) ∧
    (∀ n, ClusterCmd.killTunnel n ∉ (delete_deployment c name).2.2) ∧
    (name ∉ c.deployments → (delete_deployment c name).1.status = "error") := by
  unfold delete_deployment
  by_cases h1 : name ∈ c.services
  · by_cases h2 : name ∈ c.deployments
    · refine ⟨?_, ?_, ?_⟩
      · right; simp [h1, h2]
      · intro n; simp [h1, h2]
      · intro hd; exact absurd h2 hd
    · refine ⟨?_, ?_, ?_⟩
      · right; simp [h1, h2]
      · intro n; simp [h1, h2]
      · intro _; simp [h1, h2]
  · refine ⟨?_, ?_, ?_⟩
    · left; simp [h1]
    · intro n; simp [h1]
    · intro _; simp [h1]

/-- Witness for C7: deleting a workload absent from the cluster yields a
status "error" response. -/
theorem c7_witness :
    (delete_deployment ⟨[], []⟩ "app-gone").1.status = "error" :=
  (c7_delete_order_and_missing ⟨[], []⟩ "app-gone").2.2 (by decide)

/-- C8 counterexample: two distinct UUID4 draws agreeing on their first 8
characters produce the same deployment identity and the same workload name,
so two sequential deploy calls can reuse an identity. -/
theorem c8_counterexample :
    ("0123abcd-1111-4222-8333-444455556666" : String)
      ≠ "0123abcd-9999-4888-9777-666655554444" ∧
    deployId "0123abcd-1111-4222-8333-444455556666"
      = deployId "0123abcd-9999-4888-9777-666655554444" ∧
    appNameOf (deployId "0123abcd-1111-4222-8333-444455556666")
      = appNameOf (deployId "0123abcd-9999-4888-9777-666655554444") := by
  refine ⟨by decide, by decide, by decide⟩

/-- C8 amended: two deploy calls receive distinct identities, and hence
distinct workload names, exactly when the drawn UUID strings differ in their
first 8 characters; identity uniqueness is probabilistic, not absolute. -/
theorem c8_amended (u1 u2 : String) (h : u1.toList.take 8 ≠ u2.toList.take 8) :
    deployId u1 ≠ deployId u2 ∧
    appNameOf (deployId u1) ≠ appNameOf (deployId u2) := by
  have hne : deployId u1 ≠ deployId u2 := by
    intro he
    exact h (congrArg String.toList he)
  refine ⟨hne, fun he => hne ?_⟩
  have hdata : (appNameOf (deployId u1)).toList = (appNameOf (deployId u2)).toList :=
    congrArg String.toList he
  simp only [appNameOf, String.toList, String.data_append] at hdata
  exact String.ext (List.append_cancel_left hdata)

/-- Witness for C8 amended at two concrete UUID draws differing in their
first characters. -/
theorem c8_amended_witness :
    deployId "aaaaaaaa-1111-4222-8333-444455556666"
      ≠ deployId "bbbbbbbb-1111-4222-8333-444455556666" :=
  (c8_amended "aaaaaaaa-1111-4222-8333-444455556666"
    "bbbbbbbb-1111-4222-8333-444455556666" (by decide)).1

/-- C5: every spawn event of get_service_url is preceded in its trace by a
kill event for the same workload, and after two successive calls for one
workload (the second reaching a surviving spawn with local port p2) exactly
one live tunnel for that workload remains, bound to p2, with the second call
returning that port's URL. -/
theorem c5_tunnel_supersession (w1 w2 : ExpoWorld) (st : ProcState)
    (name : String) (p2 : Nat)
    (h1 : w2.allocPort = some p2) (h2 : w2.podStatusOk = true)
    (h3 : w2.spawnOk = true) (h4 : w2.tunnelDied = false) :
    (∀ (w : ExpoWorld) (st' : ProcState) (pre post : List ExpoEvent) (port : Nat),
        (getServiceUrl w st' name).2.2 = pre ++ ExpoEvent.spawn name port :: post →
        ExpoEvent.kill name ∈ pre) ∧
    tunnelLines (getServiceUrl w2 (getServiceUrl w1 st name).2.1 name).2.1 name
      = [tunnelCmdline name p2] ∧
    (getServiceUrl w2 (getServiceUrl w1 st name).2.1 name).1
      = "http://localhost:" ++ toString p2 := by
  have key : ∀ (stMid : ProcState),
      getServiceUrl w2 stMid name
        = ("http://localhost:" ++ toString p2,
           stMid.filter (fun c => ! containsSub c (tunnelPat name))
             ++ [tunnelCmdline name p2],
           [ExpoEvent.kill name, ExpoEvent.spawn name p2]) := by
    intro stMid
    obtain ⟨ap, ps, sp, td⟩ := w2
    simp only at h1 h2 h3 h4
    subst h1 h2 h3 h4
    unfold getServiceUrl
    simp [tunnelLines, List.filter_append, filter_not_filter,
      contains_tunnelCmdline]
  refine ⟨?_, ?_, ?_⟩
  · intro w st' pre post port h
    unfold getServiceUrl at h
    cases hw : w.allocPort with
    | none =>
      rw [hw] at h
      simp at h
    | some p =>
      rw [hw] at h
      by_cases hps : w.podStatusOk
      · by_cases hsp : w.spawnOk
        · simp only [hps, hsp, Bool.not_true, Bool.false_eq_true, if_false] at h
          by_cases hie :
            (tunnelLines
              (if w.tunnelDied then
                 st'.filter (fun c => ! containsSub c (tunnelPat name))
               else
                 st'.filter (fun c => ! containsSub c (tunnelPat name))
                   ++ [tunnelCmdline name p]) name).isEmpty
          · simp only [hie, if_true] at h
            rcases pre with _ | ⟨e, pre'⟩
            · simp at h
            · rcases pre' with _ | ⟨e', pre''⟩
              · simp at h
                simp [h.1]
              · simp at h
          · simp only [hie, Bool.false_eq_true, if_false] at h
            rcases pre with _ | ⟨e, pre'⟩
            · simp at h
            · rcases pre' with _ | ⟨e', pre''⟩
              · simp at h
                simp [h.1]
              · simp at h
        · simp only [hps, hsp, Bool.not_true, Bool.not_false, if_true,
            Bool.false_eq_true, if_false] at h
          rcases pre with _ | ⟨e, pre'⟩
          · simp at h
          · simp at h
      · simp only [hps, Bool.not_false, if_true] at h
        rcases pre with _ | ⟨e, pre'⟩
        · simp at h
        · simp at h
  · rw [key]
    simp [tunnelLines, List.filter_append, filter_not_filter,
      contains_tunnelCmdline]
  · rw [key]

/-- Witness for C5: two concrete successive exposures of one workload leave
exactly the second call's tunnel. -/
theorem c5_witness :
    tunnelLines
      (getServiceUrl ⟨some 40002, true, true, false⟩
        (getServiceUrl ⟨some 40001, true, true, false⟩ [] "app-x").2.1
        "app-x").2.1 "app-x"
      = [tunnelCmdline "app-x" 40002] :=
  (c5_tunnel_supersession ⟨some 40001, true, true, false⟩
    ⟨some 40002, true, true, false⟩ [] "app-x" 40002
    rfl rfl rfl rfl).2.1

/-- C6: the listing returns exactly the workloads whose name starts with
"app-", and its per-workload reuse-or-create step reuses the local port
parsed from a live tunnel's command line when one exists, calling
get_service_url otherwise. -/
theorem c6_list_apps_and_reuse (envW : String → ExpoWorld) (deps : List String)
    (st : ProcState) :
    (listDeployments envW deps st).1.map Prod.fst
      = deps.filter (fun n => hasAppMarker n) ∧
    (∀ (w : ExpoWorld) (st' : ProcState) (name : String),
      (tunnelLines st' name = [] →
        reuseOrCreate w st' name
          = ((getServiceUrl w st' name).1, (getServiceUrl w st' name).2.1)) ∧
      (∀ p,
        searchFirst matDigitsColon80
            (String.intercalate "\n" (tunnelLines st' name)).toList = some p →
        tunnelLines st' name ≠ [] →
        reuseOrCreate w st' name = ("http://localhost:" ++ toString p, st'))) := by
  constructor
  · induction deps generalizing st with
    | nil => rfl
    | cons name rest ih =>
      cases hb : hasAppMarker name with
      | true => simp [listDeployments, hb, ih]
      | false => simp [listDeployments, hb, ih]
  · intro w st' name
    constructor
    · intro h
      unfold reuseOrCreate
      rw [h]
      rfl
    · intro p hp hne
      unfold reuseOrCreate
      have hie : (tunnelLines st' name).isEmpty = false := by
        simpa [List.isEmpty_iff] using hne
      simp only [hie, Bool.false_eq_true, if_false, hp]

/-- Witness for C6: a live tunnel's command line is parsed back into its
local port without creating a new tunnel. -/
theorem c6_witness :
    reuseOrCreate ⟨none, false, false, false⟩ [tunnelCmdline "app-x" 40001] "app-x"
      = ("http://localhost:" ++ toString 40001,
         [tunnelCmdline "app-x" 40001]) :=
  ((c6_list_apps_and_reuse (fun _ => ⟨none, false, false, false⟩) [] []).2
    ⟨none, false, false, false⟩ [tunnelCmdline "app-x" 40001] "app-x").2
    40001 (by decide) (by decide)

end Orca
